import Mathlib

/-!
Formal model of the statistics core of the criterion benchmarking library.

The development shallowly embeds the Rust sources:

* `src/src/analysis/compare.rs` — the comparison procedure (`common`,
  `t_test`, `estimates`, `compare_to_threshold`);
* `src/src/criterion.rs` — the benchmark driver (`bench`, `compare_to_noise`)
  and its resample-count arithmetic;
* `src/src/analysis/mod.rs` — the analysis orchestrator (`common`,
  `base_dir_exists`, the average-time derivation);
* `src/src/estimate.rs` — `Estimate::new` and the `Statistic` enumeration;
* `src/stats/src/univariate/mixed.rs` — the mixed two-sample bootstrap.

Floating-point values are modelled as rationals; the square root (which has
no exact rational counterpart) is abstracted as an explicit function
argument where a definition needs it — every theorem below quantifies over
that argument, so each holds in particular for the IEEE square root.
Randomness is modelled by an explicit index-choice oracle, and panics by
an `Except` error value.
-/

/-- Arithmetic mean of a sample, `sum / len` (`Sample::mean`). -/
def sampleMean (xs : List ℚ) : ℚ := xs.sum / xs.length

/-- Sample variance of a sample: sum of squared deviations from the mean
divided by `n - 1` (`Sample::var`). -/
def sampleVar (xs : List ℚ) : ℚ :=
  ((xs.map (fun x => (x - sampleMean xs) ^ 2)).sum) / ((xs.length : ℚ) - 1)

/-- Confidence interval record, from `stats::ConfidenceInterval` as used by
`src/src/estimate.rs`. -/
structure ConfidenceInterval where
  confidence_level : ℚ
  lower_bound : ℚ
  upper_bound : ℚ
deriving DecidableEq

/-- Point estimate with interval and standard error, from
`src/src/estimate.rs` (`Estimate`). -/
structure Estimate where
  confidence_interval : ConfidenceInterval
  point_estimate : ℚ
  standard_error : ℚ
deriving DecidableEq

/-- The statistics tracked by the library, from `src/src/estimate.rs`
(`enum Statistic`). -/
inductive Statistic where
  | mean
  | median
  | medianAbsDev
  | slope
  | stdDev
deriving DecidableEq

/-- Outcome of comparing a relative-change estimate against the noise
threshold, from `src/src/analysis/compare.rs` (`enum ComparisonResult`). -/
inductive ComparisonResult where
  | Improved
  | Regressed
  | NonSignificant
deriving DecidableEq

/-- Outcome enumeration of `src/src/criterion.rs` (`enum ComparisonResult`
there; its third variant is named `WithinNoise`). -/
inductive BenchComparisonResult where
  | Improved
  | Regressed
  | WithinNoise
deriving DecidableEq

/-- `compare_to_threshold` from `src/src/analysis/compare.rs` lines 149-161:
both interval bounds below `-noise` is an improvement, both above `noise`
is a regression, anything else is not significant. -/
def compare_to_threshold (estimate : Estimate) (noise : ℚ) : ComparisonResult :=
  let lb := estimate.confidence_interval.lower_bound
  let ub := estimate.confidence_interval.upper_bound
  if lb < -noise ∧ ub < -noise then ComparisonResult.Improved
  else if lb > noise ∧ ub > noise then ComparisonResult.Regressed
  else ComparisonResult.NonSignificant

/-- `compare_to_noise` from `src/src/criterion.rs` lines 469-481; the same
bound tests as `compare_to_threshold`. -/
def compare_to_noise (estimate : Estimate) (noise : ℚ) : BenchComparisonResult :=
  let lb := estimate.confidence_interval.lower_bound
  let ub := estimate.confidence_interval.upper_bound
  if lb < -noise ∧ ub < -noise then BenchComparisonResult.Improved
  else if lb > noise ∧ ub > noise then BenchComparisonResult.Regressed
  else BenchComparisonResult.WithinNoise

/-- The boolean pushed onto `regressed` for each statistic by `estimates`
in `src/src/analysis/compare.rs` lines 120-138: `true` exactly for the
`Regressed` arm. -/
def regressedFlag : ComparisonResult → Bool
  | ComparisonResult.Regressed => true
  | _ => false

/-- The boolean pushed onto `regressed` by `bench` in
`src/src/criterion.rs` lines 316-335: `true` exactly for the `Regressed`
arm. -/
def benchRegressedFlag : BenchComparisonResult → Bool
  | BenchComparisonResult.Regressed => true
  | _ => false

/-- The t-test decision of `t_test` in `src/src/analysis/compare.rs`
line 66: `different_mean = p_value < significance_level`. -/
def tTestRejects (p_value significance_level : ℚ) : Bool :=
  decide (p_value < significance_level)

/-- Per-statistic regression flags for the two tracked relative statistics
(`REL_STATS = [Mean, Median]`), as accumulated by `estimates` in
`src/src/analysis/compare.rs`. -/
def relFlags (estMean estMedian : Estimate) (noise : ℚ) : List Bool :=
  [regressedFlag (compare_to_threshold estMean noise),
   regressedFlag (compare_to_threshold estMedian noise)]

/-- The overall verdict of `common` in `src/src/analysis/compare.rs`
lines 45-51: the run fails as regressed when `different_mean` holds and
every per-statistic flag is `true`. -/
def compareCommonVerdict (p_value significance_level noise : ℚ)
    (estMean estMedian : Estimate) : Bool :=
  tTestRejects p_value significance_level &&
    (relFlags estMean estMedian noise).all id

/-- The overall verdict of `bench` in `src/src/criterion.rs` lines 314-339:
the run fails as regressed when every per-statistic flag is `true`; no
t-test enters this decision. -/
def benchVerdict (noise : ℚ) (estMean estMedian : Estimate) : Bool :=
  [benchRegressedFlag (compare_to_noise estMean noise),
   benchRegressedFlag (compare_to_noise estMedian noise)].all id

/-- Error values for the statistics core. Modelled from the spec: the
resampler "fails with InvalidInput when n < 1"; panics elsewhere in the
core are carried as string messages by `Except` instead. -/
inductive StatsError where
  | InvalidInput
deriving DecidableEq

/-- Modelled from the spec: `Resamples::next` (the file
`stats/src/univariate/resamples.rs` is not in the sources) replaces its
buffer with `len(source)` indices drawn with replacement from the source;
the random draws are supplied by the explicit oracle `choice`, reduced
into range by a modulus. -/
def drawnResample (source : List ℚ) (choice : Nat → Nat) : List ℚ :=
  (List.range source.length).map
    (fun j => source.getD (choice j % source.length) 0)

/-- Modelled from the spec: one invocation of the resampler; it fails with
`InvalidInput` on a source of length `n < 1` and otherwise produces a
fresh drawn-with-replacement resample of the source. -/
def resampleNext (source : List ℚ) (choice : Nat → Nat) :
    Except StatsError (List ℚ) :=
  if source.length = 0 then Except.error StatsError.InvalidInput
  else Except.ok (drawnResample source choice)

/-- Sequential error-propagating map; the fold/reduce pipeline of
`rayon` in `src/stats/src/univariate/mixed.rs` collects one statistic
value per resample index in this way (worker concatenation order is
irrelevant to the properties proved here, so the model is sequential). -/
def collectExcept {α β ε : Type} (f : α → Except ε β) :
    List α → Except ε (List β)
  | [] => Except.ok []
  | x :: xs =>
    match f x with
    | Except.error e => Except.error e
    | Except.ok y =>
      match collectExcept f xs with
      | Except.error e => Except.error e
      | Except.ok ys => Except.ok (y :: ys)

/-- The mixed two-sample bootstrap of `src/stats/src/univariate/mixed.rs`
(`bootstrap`): pool `a` and `b` into `c = a ++ b`, and for each of the
`nresamples` indices draw one resample of the pool, split it at
`n_a = a.len()` into `resample[..n_a]` and `resample[n_a..]`, and apply
the statistic to the two fragments. The statistic result type is left
generic, mirroring the tuple-generic `T` of the source. -/
def mixedBootstrap {T : Type} (a b : List ℚ) (nresamples : Nat)
    (statistic : List ℚ → List ℚ → T) (choice : Nat → Nat → Nat) :
    Except StatsError (List T) :=
  let n_a := a.length
  let pool := a ++ b
  collectExcept
    (fun i =>
      match resampleNext pool (choice i) with
      | Except.error e => Except.error e
      | Except.ok resample =>
          Except.ok (statistic (List.take n_a resample) (List.drop n_a resample)))
    (List.range nresamples)

/-- Ceiling of the square root on naturals; models
`(nresamples as f64).sqrt().ceil() as uint` in `src/src/criterion.rs`
line 301 (exact for the magnitudes involved, since the correctly rounded
binary64 square root of such an integer rounds up to the next integer
exactly when the integer is not a perfect square). -/
def ceilSqrt (n : Nat) : Nat :=
  if Nat.sqrt n * Nat.sqrt n = n then Nat.sqrt n else Nat.sqrt n + 1

/-- The number of bootstrap repetitions the comparison path of `bench`
performs: `src/src/criterion.rs` lines 301-302 replace the configured
count by `nresamples_sqrt * nresamples_sqrt`. -/
def benchRelResamples (n : Nat) : Nat := ceilSqrt n * ceilSqrt n

/-- Sort used below for the percentile method. -/
def sortedDistribution (d : List ℚ) : List ℚ := d.mergeSort (fun x y => decide (x ≤ y))

/-- Modelled from the spec: `Distribution::confidence_interval(level)`
(the `stats` Distribution implementation is not in the sources) sorts the
distribution and returns the values at ranks `⌊(1-level)/2 · N⌋` and
`⌈(1 - (1-level)/2) · N⌉` (percentile method). -/
def distributionConfidenceInterval (d : List ℚ) (level : ℚ) : ConfidenceInterval :=
  let sorted := sortedDistribution d
  let n : ℚ := (d.length : ℚ)
  let lowRank : Nat := (Int.floor ((1 - level) / 2 * n)).toNat
  let highRank : Nat := (Int.ceil ((1 - (1 - level) / 2) * n)).toNat
  { confidence_level := level
    lower_bound := sorted.getD lowRank 0
    upper_bound := sorted.getD highRank 0 }

/-- Modelled from the spec: `Distribution::standard_error()` is the sample
standard deviation of the distribution values; the square root is the
supplied `sqrtFn`. -/
def distributionStandardError (sqrtFn : ℚ → ℚ) (d : List ℚ) : ℚ :=
  sqrtFn (sampleVar d)

/-- `Estimate::new` from `src/src/estimate.rs` lines 14-23: zip the
per-statistic distributions with the point values and package, for each
statistic, the distribution's confidence interval at the requested level,
the supplied point value, and the distribution's standard error. The
`TreeMap` is modelled as a key-sorted association list. -/
def estimateNew (sqrtFn : ℚ → ℚ) (distributions : List (Statistic × List ℚ))
    (points : List ℚ) (cl : ℚ) : List (Statistic × Estimate) :=
  List.zipWith
    (fun sd p =>
      (sd.1,
        { confidence_interval := distributionConfidenceInterval sd.2 cl
          point_estimate := p
          standard_error := distributionStandardError sqrtFn sd.2 }))
    distributions points

/-- Modelled from the spec: the two-sample t statistic
`t = (mean(a) - mean(b)) / sqrt(var(a)/n_a + var(b)/n_b)` (`stats::t` is
not in the sources); the square root is the supplied `sqrtFn`, so every
theorem about this definition holds for the IEEE square root in
particular. -/
def tStatistic (sqrtFn : ℚ → ℚ) (xs ys : List ℚ) : ℚ :=
  (sampleMean xs - sampleMean ys) /
    sqrtFn (sampleVar xs / xs.length + sampleVar ys / ys.length)

/-- Modelled from the spec: the two-tailed p-value is the fraction of the
bootstrapped null-t values whose absolute value is at least `|t|` (ties
count as exceeding); `TDistribution::p_value` is not in the sources. -/
def pValue (t : ℚ) (d : List ℚ) : ℚ :=
  ((d.countP (fun x => decide (|t| ≤ |x|)) : ℚ)) / (d.length : ℚ)

/-- The per-iteration average times derived in `src/src/analysis/mod.rs`
lines 135-139: zip the iteration counts with the elapsed times and divide
pointwise, `elapsed / iters`. -/
def avgTimes (iters times : List ℚ) : List ℚ :=
  List.zipWith (fun i e => e / i) iters times

/-- The baseline average times derived in `src/src/analysis/compare.rs`
lines 19-21: map each loaded `(iters, elapsed)` pair of integers to
`elapsed as f64 / iters as f64`. -/
def baseTimes (base_pairs : List (Nat × Nat)) : List ℚ :=
  base_pairs.map (fun p => (p.2 : ℚ) / (p.1 : ℚ))

/-- The `Baseline` mode of the driver as matched by
`src/src/analysis/mod.rs` (`Baseline::Compare`, `Baseline::Save`, and the
remaining non-saving mode). -/
inductive Baseline where
  | compare
  | save
  | discard
deriving DecidableEq

/-- The data produced by the comparison module that the orchestrator
consumes (`compare::common`'s result in `src/src/analysis/mod.rs`
lines 181-192), restricted to the fields the orchestrator reads. -/
structure CompareOk where
  t_value : ℚ
  t_distribution : List ℚ
deriving DecidableEq

/-- `crate::report::ComparisonData` as assembled by
`src/src/analysis/mod.rs` lines 193-206. -/
structure ComparisonData where
  p_value : ℚ
  t_value : ℚ
  t_distribution : List ℚ
  significance_threshold : ℚ
  noise_threshold : ℚ
deriving DecidableEq

/-- The inputs that determine the control flow of the orchestrator
`common` in `src/src/analysis/mod.rs`: the driver flags, the outcome of
the filesystem and measurement collaborators, and the thresholds. The
collaborators (routine sampling, baseline loading, the comparison module)
are external to this file's sources, so their outcomes are inputs of the
model. -/
structure AnalysisCtx where
  list_mode : Bool
  test_mode : Bool
  baseline : Baseline
  profile_time : Option ℚ
  load_baseline : Option String
  base_dir_exists : Bool
  loaded_sample : Except String (List ℚ × List ℚ)
  measured : List ℚ × List ℚ
  compare_result : Except String CompareOk
  significance_level : ℚ
  noise_threshold : ℚ

/-- `crate::report::MeasurementData` as assembled by `common` in
`src/src/analysis/mod.rs` lines 217-224, extended with an event-trace
view of the stages: each `..._input` field records the sample handed to
that stage, and `saves` records the artifacts persisted best-effort via
`log_if_err`. -/
structure MeasurementData where
  avg_times : List ℚ
  outliers_input : List ℚ
  regression_input : List ℚ × List ℚ
  estimates_input : List ℚ
  compare_input : Option (List ℚ)
  comparison : Option ComparisonData
  saves : List String
deriving DecidableEq

/-- The measurement half of `common` in `src/src/analysis/mod.rs`
lines 133-249: derive the average times, run outlier classification,
regression and bootstrap estimation on them, hand the same average times
to `compare::common` exactly when the baseline directory exists
(line 181, recorded in `compare_input`), attach the comparison data only
when that comparison module call succeeded (`Err` is logged and mapped to
`None`, lines 208-211), and record the best-effort persistence writes. -/
def measurementFrom (ctx : AnalysisCtx) (sample : List ℚ × List ℚ) :
    MeasurementData :=
  let iters := sample.1
  let times := sample.2
  let avg := avgTimes iters times
  let compareData : Option ComparisonData :=
    if ctx.base_dir_exists then
      match ctx.compare_result with
      | Except.ok c =>
          some { p_value := pValue c.t_value c.t_distribution
                 t_value := c.t_value
                 t_distribution := c.t_distribution
                 significance_threshold := ctx.significance_level
                 noise_threshold := ctx.noise_threshold }
      | Except.error _ => none
    else none
  { avg_times := avg
    outliers_input := avg
    regression_input := (iters, times)
    estimates_input := avg
    compare_input := if ctx.base_dir_exists then some avg else none
    comparison := compareData
    saves :=
      if ctx.load_baseline.isNone then
        ["tukey.json", "sample.json", "estimates.json", "benchmark.json"]
      else ["tukey.json"] }

/-- The orchestrator `common` of `src/src/analysis/mod.rs` lines 39-250:
list mode and test mode return before analysis; `Baseline::Compare`
without a baseline directory panics (line 67); profiling mode returns
before analysis; with `--load-baseline` a failed sample load panics
(line 96); otherwise the measured (or loaded) sample goes through the
full measurement pipeline of `measurementFrom`. `Except.error` models a
panic, `Except.ok none` a return before the measurement pipeline. -/
def commonAnalysis (ctx : AnalysisCtx) : Except String (Option MeasurementData) :=
  if ctx.list_mode then Except.ok none
  else if ctx.test_mode then Except.ok none
  else if ctx.baseline = Baseline.compare ∧ ctx.base_dir_exists = false then
    Except.error "Baseline must exist before comparison is allowed"
  else if ctx.profile_time.isSome then Except.ok none
  else
    match ctx.load_baseline with
    | some _ =>
      match ctx.loaded_sample with
      | Except.error e =>
          Except.error ("Baseline must exist before it can be loaded. Error: " ++ e)
      | Except.ok s => Except.ok (some (measurementFrom ctx s))
    | none => Except.ok (some (measurementFrom ctx ctx.measured))

/-! ## Helper lemmas -/

theorem regressedFlag_eq_true (r : ComparisonResult) :
    regressedFlag r = true ↔ r = ComparisonResult.Regressed := by
  cases r <;> simp [regressedFlag]

theorem benchRegressedFlag_eq_true (r : BenchComparisonResult) :
    benchRegressedFlag r = true ↔ r = BenchComparisonResult.Regressed := by
  cases r <;> simp [benchRegressedFlag]

theorem collectExcept_ok_map {α β ε : Type} (f : α → Except ε β) (g : α → β) :
    ∀ xs : List α, (∀ x ∈ xs, f x = Except.ok (g x)) →
      collectExcept f xs = Except.ok (xs.map g) := by
  intro xs
  induction xs with
  | nil => intro _; rfl
  | cons y ys ih =>
    intro h
    simp only [collectExcept, List.map_cons]
    rw [h y (List.mem_cons_self y ys), ih (fun x hx => h x (List.mem_cons_of_mem y hx))]

theorem collectExcept_ok_length {α β ε : Type} (f : α → Except ε β) :
    ∀ (xs : List α) (out : List β),
      collectExcept f xs = Except.ok out → out.length = xs.length := by
  intro xs
  induction xs with
  | nil =>
    intro out h
    simp only [collectExcept] at h
    cases h
    rfl
  | cons y ys ih =>
    intro out h
    simp only [collectExcept] at h
    cases hf : f y with
    | error e => rw [hf] at h; cases h
    | ok v =>
      rw [hf] at h
      cases hc : collectExcept f ys with
      | error e => rw [hc] at h; cases h
      | ok vs =>
        rw [hc] at h
        cases h
        simp [ih vs hc]

theorem getD_zipWith {α β γ : Type} (f : α → β → γ) (da : α) (db : β) (dc : γ) :
    ∀ (xs : List α) (ys : List β) (i : Nat), i < xs.length → i < ys.length →
      (List.zipWith f xs ys).getD i dc = f (xs.getD i da) (ys.getD i db) := by
  intro xs
  induction xs with
  | nil => intro ys i h _; cases h
  | cons x xs ih =>
    intro ys i hx hy
    cases ys with
    | nil => cases hy
    | cons y ys =>
      cases i with
      | zero => rfl
      | succ j =>
        simp only [List.zipWith_cons_cons, List.getD_cons_succ]
        simp only [List.length_cons] at hx hy
        exact ih ys j (by omega) (by omega)

/-! ## Claim C2 -/

/-- Claim C2: for every relative-change estimate with interval bounds
`lb ≤ ub` and noise threshold `τ ≥ 0`, both `compare_to_threshold`
(`src/src/analysis/compare.rs`) and `compare_to_noise`
(`src/src/criterion.rs`) return Improved exactly when both bounds are
below `-τ`, Regressed exactly when both bounds are above `τ`, and the
non-significant outcome in every remaining case, so the three outcomes
are exhaustive and mutually exclusive. -/
theorem C2_classifier_trichotomy (e : Estimate) (τ : ℚ)
    (hle : e.confidence_interval.lower_bound ≤ e.confidence_interval.upper_bound)
    (hτ : 0 ≤ τ) :
    (compare_to_threshold e τ = ComparisonResult.Improved ↔
      (e.confidence_interval.lower_bound < -τ ∧
       e.confidence_interval.upper_bound < -τ)) ∧
    (compare_to_threshold e τ = ComparisonResult.Regressed ↔
      (τ < e.confidence_interval.lower_bound ∧
       τ < e.confidence_interval.upper_bound)) ∧
    (compare_to_threshold e τ = ComparisonResult.NonSignificant ↔
      ¬((e.confidence_interval.lower_bound < -τ ∧
         e.confidence_interval.upper_bound < -τ) ∨
        (τ < e.confidence_interval.lower_bound ∧
         τ < e.confidence_interval.upper_bound))) ∧
    (compare_to_noise e τ = BenchComparisonResult.Improved ↔
      (e.confidence_interval.lower_bound < -τ ∧
       e.confidence_interval.upper_bound < -τ)) ∧
    (compare_to_noise e τ = BenchComparisonResult.Regressed ↔
      (τ < e.confidence_interval.lower_bound ∧
       τ < e.confidence_interval.upper_bound)) ∧
    (compare_to_noise e τ = BenchComparisonResult.WithinNoise ↔
      ¬((e.confidence_interval.lower_bound < -τ ∧
         e.confidence_interval.upper_bound < -τ) ∨
        (τ < e.confidence_interval.lower_bound ∧
         τ < e.confidence_interval.upper_bound))) := by
  obtain ⟨⟨cl, lb, ub⟩, pe, se⟩ := e
  simp only at hle
  dsimp only [compare_to_threshold, compare_to_noise]
  split_ifs with h1 h2
  · exact ⟨iff_of_true rfl h1,
      iff_of_false (by decide) (fun h => by have := h.2; have := h1.2; linarith),
      iff_of_false (by decide) (fun h => h (Or.inl h1)),
      iff_of_true rfl h1,
      iff_of_false (by decide) (fun h => by have := h.2; have := h1.2; linarith),
      iff_of_false (by decide) (fun h => h (Or.inl h1))⟩
  · exact ⟨iff_of_false (by decide) h1,
      iff_of_true rfl h2,
      iff_of_false (by decide) (fun h => h (Or.inr h2)),
      iff_of_false (by decide) h1,
      iff_of_true rfl h2,
      iff_of_false (by decide) (fun h => h (Or.inr h2))⟩
  · exact ⟨iff_of_false (by decide) h1,
      iff_of_false (by decide) h2,
      iff_of_true rfl (fun h => h.elim h1 h2),
      iff_of_false (by decide) h1,
      iff_of_false (by decide) h2,
      iff_of_true rfl (fun h => h.elim h1 h2)⟩

/-- Concrete estimate used to witness C2: interval `[1/10, 3/10]`. -/
def estC2 : Estimate :=
  { confidence_interval :=
      { confidence_level := 19/20, lower_bound := 1/10, upper_bound := 3/10 }
    point_estimate := 1/5
    standard_error := 0 }

theorem C2_witness :
    estC2.confidence_interval.lower_bound ≤ estC2.confidence_interval.upper_bound ∧
    (0 : ℚ) ≤ 1/20 ∧
    (compare_to_threshold estC2 (1/20) = ComparisonResult.Regressed ↔
      ((1:ℚ)/20 < estC2.confidence_interval.lower_bound ∧
       (1:ℚ)/20 < estC2.confidence_interval.upper_bound)) := by
  have hle : estC2.confidence_interval.lower_bound ≤
      estC2.confidence_interval.upper_bound := by norm_num [estC2]
  have hτ : (0 : ℚ) ≤ 1/20 := by norm_num
  exact ⟨hle, hτ, (C2_classifier_trichotomy estC2 (1/20) hle hτ).2.1⟩

/-! ## Claim C1 -/

/-- Claim C1 (amended): the two comparison code paths decide the
regression verdict differently. In `common` of
`src/src/analysis/compare.rs` the run is judged regressed exactly when the
t-test rejects the null (`p_value < significance_level`) and both tracked
relative-change statistics (Mean and Median) classify as Regressed; in
`bench` of `src/src/criterion.rs` the run is judged regressed exactly when
both tracked statistics classify as Regressed, with no t-test condition.
In both paths a single Improved or non-significant statistic vetoes the
regression verdict. -/
theorem C1_regression_verdicts (p sl noise : ℚ) (eMean eMedian : Estimate) :
    (compareCommonVerdict p sl noise eMean eMedian = true ↔
      (p < sl ∧
       compare_to_threshold eMean noise = ComparisonResult.Regressed ∧
       compare_to_threshold eMedian noise = ComparisonResult.Regressed)) ∧
    (benchVerdict noise eMean eMedian = true ↔
      (compare_to_noise eMean noise = BenchComparisonResult.Regressed ∧
       compare_to_noise eMedian noise = BenchComparisonResult.Regressed)) := by
  constructor
  · simp only [compareCommonVerdict, tTestRejects, relFlags, List.all_cons,
      List.all_nil, Bool.and_eq_true, decide_eq_true_eq, id_eq,
      Bool.and_true, regressedFlag_eq_true, and_assoc]
  · simp only [benchVerdict, List.all_cons, List.all_nil, Bool.and_eq_true,
      id_eq, Bool.and_true, benchRegressedFlag_eq_true]

/-- Concrete estimate with interval `[1/5, 3/10]`, classified Regressed
against noise threshold `1/20`. -/
def estReg : Estimate :=
  { confidence_interval :=
      { confidence_level := 19/20, lower_bound := 1/5, upper_bound := 3/10 }
    point_estimate := 1/4
    standard_error := 0 }

/-- Claim C1 counterexample: a comparison run on the `bench` path of
`src/src/criterion.rs` whose two tracked statistics both classify as
Regressed is judged regressed even though the t-test does not reject the
null (here `p_value = 9/10` against `significance_level = 1/20`), so the
claimed biconditional with the t-test conjunct fails on that path. -/
theorem C1_counterexample :
    benchVerdict (1/20) estReg estReg = true ∧
    tTestRejects (9/10) (1/20) = false := by
  constructor
  · have hcls : compare_to_noise estReg (1/20) = BenchComparisonResult.Regressed := by
      rw [compare_to_noise]
      rw [if_neg (by rw [estReg]; norm_num), if_pos (by rw [estReg]; constructor <;> norm_num)]
    unfold benchVerdict
    rw [hcls]
    rfl
  · simp only [tTestRejects, decide_eq_false_iff_not, not_lt]
    norm_num

/-! ## Claim C3 -/

/-- Claim C3: every iteration of the mixed two-sample bootstrap applies
the caller's statistic to the prefix of length `n_a` and the suffix of
length `n_b` of one resample of the pooled sequence `a ++ b`, and to
nothing else: the output is exactly the per-index list of such
applications, each drawn resample has the pool's length `n_a + n_b`, and
every element of a drawn resample is an element of the pool. -/
theorem C3_mixed_pool_split {T : Type} (a b : List ℚ) (nres : Nat)
    (stat : List ℚ → List ℚ → T) (choice : Nat → Nat → Nat)
    (hpool : a.length + b.length ≠ 0) :
    mixedBootstrap a b nres stat choice =
      Except.ok ((List.range nres).map (fun i =>
        stat (List.take a.length (drawnResample (a ++ b) (choice i)))
             (List.drop a.length (drawnResample (a ++ b) (choice i))))) ∧
    (∀ i, (drawnResample (a ++ b) (choice i)).length = a.length + b.length) ∧
    (∀ i x, x ∈ drawnResample (a ++ b) (choice i) → x ∈ a ++ b) := by
  have hlen : (a ++ b).length ≠ 0 := by
    rw [List.length_append]; exact hpool
  refine ⟨?_, ?_, ?_⟩
  · simp only [mixedBootstrap]
    refine collectExcept_ok_map _ _ (List.range nres) ?_
    intro i _
    rw [resampleNext, if_neg hlen]
  · intro i
    simp [drawnResample]
  · intro i x hx
    simp only [drawnResample, List.mem_map, List.mem_range] at hx
    obtain ⟨j, _, hj⟩ := hx
    have hmod : choice i j % (a ++ b).length < (a ++ b).length :=
      Nat.mod_lt _ (Nat.pos_of_ne_zero hlen)
    rw [← hj, List.getD_eq_getElem _ _ hmod]
    exact List.getElem_mem _

theorem C3_witness :
    ([(1:ℚ)].length + [(2:ℚ)].length ≠ 0) ∧
    mixedBootstrap [(1:ℚ)] [(2:ℚ)] 1 (fun x y => (x, y)) (fun _ _ => 0) =
      Except.ok [([(1:ℚ)], [(1:ℚ)])] := by
  refine ⟨by decide, ?_⟩
  have h := (C3_mixed_pool_split [(1:ℚ)] [(2:ℚ)] 1 (fun x y => (x, y))
    (fun _ _ => 0) (by decide)).1
  exact h.trans (by rfl)

/-! ## Claim C4 -/

/-- Claim C4 (amended): every successful mixed bootstrap run returns one
distribution entry per bootstrap repetition, so the output length equals
the repetition count it was invoked with; however, the comparison path of
`bench` in `src/src/criterion.rs` lines 301-306 derives its repetition
count from the configured count `N` as `ceil(sqrt(N))^2`, which equals
`N` exactly when `N` is a perfect square. -/
theorem C4_distribution_length {T : Type} (a b : List ℚ) (nres : Nat)
    (stat : List ℚ → List ℚ → T) (choice : Nat → Nat → Nat) (out : List T)
    (h : mixedBootstrap a b nres stat choice = Except.ok out) :
    out.length = nres ∧
    (∀ n : Nat, benchRelResamples n = n ↔ Nat.sqrt n * Nat.sqrt n = n) := by
  constructor
  · simp only [mixedBootstrap] at h
    have := collectExcept_ok_length _ (List.range nres) out h
    simpa using this
  · intro n
    unfold benchRelResamples ceilSqrt
    by_cases hsq : Nat.sqrt n * Nat.sqrt n = n
    · rw [if_pos hsq]
    · rw [if_neg hsq]
      have hlt : n < (Nat.sqrt n + 1) * (Nat.sqrt n + 1) := Nat.lt_succ_sqrt n
      exact ⟨fun hcontra => absurd hcontra (Nat.ne_of_gt hlt), fun hcontra => absurd hcontra hsq⟩

theorem C4_witness :
    mixedBootstrap [(1:ℚ)] [(2:ℚ)] 2 (fun x y => (x, y)) (fun _ _ => 0) =
      Except.ok [([(1:ℚ)], [(1:ℚ)]), ([(1:ℚ)], [(1:ℚ)])] ∧
    ([([(1:ℚ)], [(1:ℚ)]), ([(1:ℚ)], [(1:ℚ)])]).length = 2 := by
  have h : mixedBootstrap [(1:ℚ)] [(2:ℚ)] 2 (fun x y => (x, y)) (fun _ _ => 0) =
      Except.ok [([(1:ℚ)], [(1:ℚ)]), ([(1:ℚ)], [(1:ℚ)])] := by rfl
  exact ⟨h, (C4_distribution_length [(1:ℚ)] [(2:ℚ)] 2 (fun x y => (x, y))
    (fun _ _ => 0) _ h).1⟩

/-- Claim C4 counterexample: with the default configured resample count
`N = 100000` (`src/src/criterion.rs` line 53), the comparison path
performs `ceil(sqrt(100000))^2 = 317^2 = 100489` bootstrap repetitions,
so its distributions do not have the configured length `100000`. -/
theorem C4_counterexample :
    benchRelResamples 100000 = 100489 ∧ (100489 : Nat) ≠ 100000 := by
  have hsqrt : Nat.sqrt 100000 = 316 := by
    have h1 : 316 ≤ Nat.sqrt 100000 := Nat.le_sqrt.2 (by norm_num)
    have h2 : Nat.sqrt 100000 < 317 := Nat.sqrt_lt.2 (by norm_num)
    omega
  constructor
  · rw [benchRelResamples, ceilSqrt, hsqrt, if_neg (by norm_num)]
  · norm_num

/-! ## Claim C9 -/

/-- Claim C9: invoking the resampler on an empty source (length `n < 1`)
fails with `InvalidInput`, and the mixed two-sample bootstrap over an
empty pool likewise fails with `InvalidInput` on its first repetition
instead of producing distributions. -/
theorem C9_empty_sample_invalid {T : Type} (choice : Nat → Nat)
    (choice2 : Nat → Nat → Nat) (stat : List ℚ → List ℚ → T) (nres : Nat)
    (h : 1 ≤ nres) :
    resampleNext [] choice = Except.error StatsError.InvalidInput ∧
    mixedBootstrap ([] : List ℚ) [] nres stat choice2 =
      Except.error StatsError.InvalidInput := by
  refine ⟨rfl, ?_⟩
  cases nres with
  | zero => exact absurd h (by decide)
  | succ m =>
    show collectExcept _ (List.range (m + 1)) = _
    rw [List.range_eq_range', List.range'_succ]
    rfl

theorem C9_witness :
    1 ≤ 1 ∧
    mixedBootstrap ([] : List ℚ) [] 1 (fun x y => (x, y)) (fun _ _ => 0) =
      Except.error StatsError.InvalidInput :=
  ⟨Nat.le_refl 1,
   (C9_empty_sample_invalid (fun _ => 0) (fun _ _ => 0) (fun x y => (x, y)) 1
     (Nat.le_refl 1)).2⟩

/-! ## Claim C5 -/

/-- Claim C5: in normal measure mode (no list/test/profile mode, no
`--load-baseline`, baseline mode not `Compare`), when the baseline
directory does not exist the orchestrator completes without error, the
comparison data is absent, and the remaining stages all run: outlier
classification, bootstrap estimation and the regression fit receive their
samples and the best-effort persistence writes all happen. -/
theorem C5_missing_baseline_skips_compare (ctx : AnalysisCtx)
    (h1 : ctx.list_mode = false) (h2 : ctx.test_mode = false)
    (h3 : ctx.profile_time = none) (h4 : ctx.load_baseline = none)
    (h5 : ctx.base_dir_exists = false) (h6 : ctx.baseline ≠ Baseline.compare) :
    commonAnalysis ctx = Except.ok (some (measurementFrom ctx ctx.measured)) ∧
    (measurementFrom ctx ctx.measured).comparison = none ∧
    (measurementFrom ctx ctx.measured).outliers_input =
      avgTimes ctx.measured.1 ctx.measured.2 ∧
    (measurementFrom ctx ctx.measured).regression_input = ctx.measured ∧
    (measurementFrom ctx ctx.measured).estimates_input =
      avgTimes ctx.measured.1 ctx.measured.2 ∧
    (measurementFrom ctx ctx.measured).saves =
      ["tukey.json", "sample.json", "estimates.json", "benchmark.json"] := by
  refine ⟨?_, ?_, ?_, ?_, ?_, ?_⟩
  · rw [commonAnalysis]
    rw [if_neg (by simp [h1]), if_neg (by simp [h2]), if_neg (by simp [h6]),
      if_neg (by simp [h3])]
    rw [h4]
  · simp [measurementFrom, h5]
  · simp [measurementFrom]
  · simp [measurementFrom]
  · simp [measurementFrom]
  · simp [measurementFrom, h4]

/-- Concrete context for the C5 witness: normal measure mode, baseline
directory absent. -/
def ctxC5 : AnalysisCtx :=
  { list_mode := false
    test_mode := false
    baseline := Baseline.save
    profile_time := none
    load_baseline := none
    base_dir_exists := false
    loaded_sample := Except.ok ([], [])
    measured := ([1], [2])
    compare_result := Except.error "unused"
    significance_level := 1/20
    noise_threshold := 1/100 }

theorem C5_witness :
    ctxC5.list_mode = false ∧ ctxC5.test_mode = false ∧
    ctxC5.profile_time = none ∧ ctxC5.load_baseline = none ∧
    ctxC5.base_dir_exists = false ∧ ctxC5.baseline ≠ Baseline.compare ∧
    commonAnalysis ctxC5 = Except.ok (some (measurementFrom ctxC5 ctxC5.measured)) ∧
    (measurementFrom ctxC5 ctxC5.measured).comparison = none := by
  have h := C5_missing_baseline_skips_compare ctxC5 rfl rfl rfl rfl rfl (by decide)
  exact ⟨rfl, rfl, rfl, rfl, rfl, by decide, h.1, h.2.1⟩

/-! ## Claim C6 -/

/-- Concrete context in which the baseline directory exists but the
comparison module fails (for instance because the persisted baseline data
is corrupt). -/
def ctxC6 : AnalysisCtx :=
  { list_mode := false
    test_mode := false
    baseline := Baseline.save
    profile_time := none
    load_baseline := none
    base_dir_exists := true
    loaded_sample := Except.ok ([], [])
    measured := ([1], [2])
    compare_result := Except.error "corrupt baseline data"
    significance_level := 1/20
    noise_threshold := 1/100 }

/-- Claim C6 counterexample: with the baseline directory present and the
comparison computation failing (`compare::common` returns `Err`), the
orchestrator `common` of `src/src/analysis/mod.rs` (lines 208-211) logs
the error and proceeds: the analysis completes successfully with the
comparison data absent, so the failure is downgraded to a
"no comparison" outcome rather than surfaced as fatal. -/
theorem C6_counterexample :
    ctxC6.base_dir_exists = true ∧
    ctxC6.compare_result = Except.error "corrupt baseline data" ∧
    commonAnalysis ctxC6 = Except.ok (some (measurementFrom ctxC6 ctxC6.measured)) ∧
    (measurementFrom ctxC6 ctxC6.measured).comparison = none := by
  refine ⟨rfl, rfl, ?_, ?_⟩ <;> rfl

/-- Claim C6 (amended): when the baseline directory exists but the
comparison computation fails, the orchestrator logs the error and
completes the analysis without a comparison result; the failure is not
fatal on this path (only the separate `--load-baseline` sample load
panics on unreadable data). -/
theorem C6_compare_error_not_fatal (ctx : AnalysisCtx) (e : String)
    (h1 : ctx.list_mode = false) (h2 : ctx.test_mode = false)
    (h3 : ctx.profile_time = none) (h4 : ctx.load_baseline = none)
    (h5 : ctx.base_dir_exists = true)
    (h7 : ctx.compare_result = Except.error e) :
    commonAnalysis ctx = Except.ok (some (measurementFrom ctx ctx.measured)) ∧
    (measurementFrom ctx ctx.measured).comparison = none := by
  constructor
  · rw [commonAnalysis]
    rw [if_neg (by simp [h1]), if_neg (by simp [h2]), if_neg (by simp [h5]),
      if_neg (by simp [h3])]
    rw [h4]
  · simp [measurementFrom, h5, h7]

theorem C6_witness :
    ctxC6.list_mode = false ∧ ctxC6.base_dir_exists = true ∧
    ctxC6.compare_result = Except.error "corrupt baseline data" ∧
    (measurementFrom ctxC6 ctxC6.measured).comparison = none :=
  ⟨rfl, rfl, rfl,
   (C6_compare_error_not_fatal ctxC6 "corrupt baseline data" rfl rfl rfl rfl rfl
     rfl).2⟩

/-! ## Claim C10 -/

/-- Claim C10: the sample handed to the downstream statistics is the
pointwise per-iteration average. `avgTimes` has one entry per measured
pair and its `i`-th entry is `elapsed_i / iterations_i`; the loaded
baseline pairs go through the same pointwise division (`baseTimes`);
and, in normal measure mode, the orchestrator hands exactly `avgTimes`
of the measured pairs to the outlier and bootstrap-estimate stages, and
to the comparison stage whenever the baseline directory exists (when it
does not, no sample is handed to comparison at all). -/
theorem C10_per_iteration_averages (iters times : List ℚ)
    (pairs : List (Nat × Nat)) (h : iters.length = times.length) :
    (avgTimes iters times).length = times.length ∧
    (∀ i, i < times.length →
      (avgTimes iters times).getD i 0 = times.getD i 0 / iters.getD i 0) ∧
    (baseTimes pairs).length = pairs.length ∧
    (∀ i, i < pairs.length →
      (baseTimes pairs).getD i 0 =
        ((pairs.getD i (0, 0)).2 : ℚ) / ((pairs.getD i (0, 0)).1 : ℚ)) ∧
    (∀ ctx : AnalysisCtx, ctx.measured = (iters, times) →
      ctx.list_mode = false → ctx.test_mode = false →
      ctx.profile_time = none → ctx.load_baseline = none →
      ctx.baseline ≠ Baseline.compare →
      commonAnalysis ctx = Except.ok (some (measurementFrom ctx ctx.measured)) ∧
      (measurementFrom ctx ctx.measured).outliers_input = avgTimes iters times ∧
      (measurementFrom ctx ctx.measured).estimates_input = avgTimes iters times ∧
      (ctx.base_dir_exists = true →
        (measurementFrom ctx ctx.measured).compare_input =
          some (avgTimes iters times)) ∧
      (ctx.base_dir_exists = false →
        (measurementFrom ctx ctx.measured).compare_input = none)) := by
  refine ⟨?_, ?_, ?_, ?_, ?_⟩
  · simp [avgTimes, h]
  · intro i hi
    exact getD_zipWith (fun a e => e / a) 0 0 0 iters times i (by omega) hi
  · simp [baseTimes]
  · intro i hi
    induction pairs generalizing i with
    | nil => cases hi
    | cons p ps ih =>
      cases i with
      | zero => rfl
      | succ j =>
        simp only [baseTimes, List.map_cons, List.getD_cons_succ]
        simp only [List.length_cons] at hi
        exact ih j (by omega)
  · intro ctx hm h1 h2 h3 h4 h6
    have hc : commonAnalysis ctx = Except.ok (some (measurementFrom ctx ctx.measured)) := by
      rw [commonAnalysis]
      rw [if_neg (by simp [h1]), if_neg (by simp [h2]), if_neg (by simp [h6]),
        if_neg (by simp [h3])]
      rw [h4]
    refine ⟨hc, ?_, ?_, ?_, ?_⟩
    · simp [measurementFrom, hm]
    · simp [measurementFrom, hm]
    · intro hb; simp [measurementFrom, hm, hb]
    · intro hb; simp [measurementFrom, hm, hb]

/-- Concrete context for the C10 witness: a normal measured run whose
baseline directory exists, so the comparison stage runs. -/
def ctxC10 : AnalysisCtx :=
  { list_mode := false
    test_mode := false
    baseline := Baseline.save
    profile_time := none
    load_baseline := none
    base_dir_exists := true
    loaded_sample := Except.ok ([], [])
    measured := ([2, 4], [10, 12])
    compare_result := Except.ok { t_value := 0, t_distribution := [] }
    significance_level := 1/20
    noise_threshold := 1/100 }

theorem C10_witness :
    ([(2:ℚ), 4].length = [(10:ℚ), 12].length) ∧
    (avgTimes [(2:ℚ), 4] [(10:ℚ), 12]).getD 0 0 = (10:ℚ) / 2 ∧
    (avgTimes [(2:ℚ), 4] [(10:ℚ), 12]).getD 1 0 = (12:ℚ) / 4 ∧
    ctxC10.base_dir_exists = true ∧
    (measurementFrom ctxC10 ctxC10.measured).compare_input =
      some (avgTimes [(2:ℚ), 4] [(10:ℚ), 12]) := by
  have h := C10_per_iteration_averages [(2:ℚ), 4] [(10:ℚ), 12] [] rfl
  have hcmp := (h.2.2.2.2 ctxC10 rfl rfl rfl rfl rfl (by decide)).2.2.2.1 rfl
  exact ⟨rfl, h.2.1 0 (by decide), h.2.1 1 (by decide), rfl, hcmp⟩

/-! ## Claim C7 -/

/-- Claim C7: `Estimate::new` pairs each per-statistic distribution with
its point value and produces, for each index in range, an estimate whose
point estimate is the supplied point value, whose confidence interval is
the distribution's percentile-method interval at the requested level, and
whose standard error is the distribution's standard error; the output has
one entry per zipped pair. -/
theorem C7_estimate_new_fields (sqrtFn : ℚ → ℚ)
    (ds : List (Statistic × List ℚ)) (points : List ℚ) (cl : ℚ) (i : Nat)
    (hd : i < ds.length) (hp : i < points.length) :
    (estimateNew sqrtFn ds points cl).length = min ds.length points.length ∧
    (estimateNew sqrtFn ds points cl).getD i
        (Statistic.mean,
          { confidence_interval :=
              { confidence_level := 0, lower_bound := 0, upper_bound := 0 }
            point_estimate := 0
            standard_error := 0 }) =
      ((ds.getD i (Statistic.mean, [])).1,
        { confidence_interval :=
            distributionConfidenceInterval (ds.getD i (Statistic.mean, [])).2 cl
          point_estimate := points.getD i 0
          standard_error :=
            distributionStandardError sqrtFn (ds.getD i (Statistic.mean, [])).2 }) := by
  constructor
  · simp [estimateNew]
  · exact getD_zipWith _ (Statistic.mean, []) 0 _ ds points i hd hp

theorem C7_witness :
    (0 < [(Statistic.mean, [(1:ℚ), 2])].length) ∧ (0 < [(3:ℚ)/2].length) ∧
    (estimateNew id [(Statistic.mean, [(1:ℚ), 2])] [(3:ℚ)/2] (19/20)).getD 0
        (Statistic.mean,
          { confidence_interval :=
              { confidence_level := 0, lower_bound := 0, upper_bound := 0 }
            point_estimate := 0
            standard_error := 0 }) =
      (Statistic.mean,
        { confidence_interval :=
            distributionConfidenceInterval [(1:ℚ), 2] (19/20)
          point_estimate := (3:ℚ)/2
          standard_error := distributionStandardError id [(1:ℚ), 2] }) := by
  have h := (C7_estimate_new_fields id [(Statistic.mean, [(1:ℚ), 2])]
    [(3:ℚ)/2] (19/20) 0 (by decide) (by decide)).2
  exact ⟨by decide, by decide, h⟩

/-! ## Claim C8 -/

/-- Claim C8: for samples with at least two elements each and nonzero
pooled variance term, swapping the two inputs negates the two-sample
t statistic while the two-tailed p-value computed from any null
t-distribution is unchanged (it depends on the statistic only through its
absolute value). The theorem quantifies over the square-root function, so
it holds for the IEEE square root in particular. -/
theorem C8_t_test_symmetry (sqrtFn : ℚ → ℚ) (xs ys d : List ℚ)
    (h1 : 2 ≤ xs.length) (h2 : 2 ≤ ys.length)
    (h3 : sampleVar xs / xs.length + sampleVar ys / ys.length ≠ 0) :
    tStatistic sqrtFn xs ys = -(tStatistic sqrtFn ys xs) ∧
    pValue (tStatistic sqrtFn xs ys) d = pValue (tStatistic sqrtFn ys xs) d := by
  have hneg : tStatistic sqrtFn xs ys = -(tStatistic sqrtFn ys xs) := by
    unfold tStatistic
    rw [add_comm (sampleVar ys / (ys.length : ℚ)) (sampleVar xs / (xs.length : ℚ)),
      ← neg_div, neg_sub]
  refine ⟨hneg, ?_⟩
  rw [hneg]
  unfold pValue
  have hcount : d.countP (fun x => decide (|-(tStatistic sqrtFn ys xs)| ≤ |x|)) =
      d.countP (fun x => decide (|tStatistic sqrtFn ys xs| ≤ |x|)) := by
    apply List.countP_congr
    intro x _
    rw [abs_neg]
  rw [hcount]

theorem C8_witness :
    (2 ≤ [(0:ℚ), 2].length) ∧ (2 ≤ [(0:ℚ), 4].length) ∧
    (sampleVar [(0:ℚ), 2] / ([(0:ℚ), 2].length : ℚ) +
      sampleVar [(0:ℚ), 4] / ([(0:ℚ), 4].length : ℚ) ≠ 0) ∧
    tStatistic id [(0:ℚ), 2] [(0:ℚ), 4] = -(tStatistic id [(0:ℚ), 4] [(0:ℚ), 2]) ∧
    pValue (tStatistic id [(0:ℚ), 2] [(0:ℚ), 4]) [(1:ℚ)] =
      pValue (tStatistic id [(0:ℚ), 4] [(0:ℚ), 2]) [(1:ℚ)] := by
  have hvar : sampleVar [(0:ℚ), 2] / ([(0:ℚ), 2].length : ℚ) +
      sampleVar [(0:ℚ), 4] / ([(0:ℚ), 4].length : ℚ) ≠ 0 := by
    norm_num [sampleVar, sampleMean]
  have h := C8_t_test_symmetry id [(0:ℚ), 2] [(0:ℚ), 4] [(1:ℚ)]
    (by decide) (by decide) hvar
  exact ⟨by decide, by decide, hvar, h.1, h.2⟩
